import Mathlib

/-!
Verification development for the NOAA-FLPS multi-source geospatial
unification pipeline: a shallow embedding of the repository's Python
data-conversion scripts (under src/data/scripts/) together with proofs
about the embedded behaviour.

Conventions used throughout:
- raster cell values are rationals; a missing value (NaN / masked nodata)
  is modelled as `none` of `Option`;
- logging calls are modelled as an emitted list of `Event`s;
- Python exceptions are modelled with `Except`; a `try/except` block is a
  `match` on the `Except` value;
- file names, paths and variable names are plain strings.
-/

namespace NoaaFlps

/-- Logging and console events the scripts emit (logging.warning,
logging.error, logging.info and print calls). -/
inductive Event where
  | warn (msg : String)
  | err (msg : String)
  | info (msg : String)
deriving DecidableEq, Repr

/-- True exactly for error-level events. -/
def Event.isErr : Event → Bool
  | .err _ => true
  | _ => false

/-! ## Quality filter (MODIS)

Embeds the QA-mask-and-scale step shared by
src/data/scripts/MODIS/modis_processor.py (process_single_file, lines
131-137) and src/data/scripts/processing/process_modis.py
(process_single_hdf, lines 64-73):

    quality_mask = qa.isin(CONFIG[VALID_QA_VALUES])
    cleaned = var.where(quality_mask) * CONFIG[SCALE_FACTOR]

The QA raster is opened with masked=True, so a QA cell can itself be
missing; data cells are likewise Option-valued. -/

/-- CONFIG SCALE_FACTOR = 0.0001 (modis_processor.py line 43,
process_modis.py line 17). -/
def SCALE_FACTOR : ℚ := 1 / 10000

/-- CONFIG VALID_QA_VALUES = [0] (0 = good data, use with confidence). -/
def VALID_QA_VALUES : List ℤ := [0]

/-- Models DataArray.isin on one QA cell: a missing (masked nodata) QA cell
is not an element of any value list. -/
def isinCell (valid : List ℤ) (q : Option ℤ) : Bool :=
  match q with
  | some v => valid.contains v
  | none => false

/-- Models DataArray.where(mask) on one cell: where the mask is false the
cell becomes NaN (missing). -/
def whereCell (mask : Bool) (v : Option ℚ) : Option ℚ :=
  if mask then v else none

/-- Models multiplication of a cell by a scalar; missing propagates. -/
def scaleCell (s : ℚ) (v : Option ℚ) : Option ℚ :=
  v.map (fun x => x * s)

/-- One cell of the quality filter exactly as the scripts compute it:
mask by QA membership first, then apply the multiplicative scale factor. -/
def qualityFilterCell (valid : List ℤ) (s : ℚ) (q : Option ℤ) (v : Option ℚ) :
    Option ℚ :=
  scaleCell s (whereCell (isinCell valid q) v)

/-- Whole-variable quality filter: cellwise combination of the QA array and
one data variable (the xarray operations broadcast cellwise). -/
def qualityFilterVar (valid : List ℤ) (s : ℚ) (qa : List (Option ℤ))
    (v : List (Option ℚ)) : List (Option ℚ) :=
  List.zipWith (qualityFilterCell valid s) qa v

/-! ## Temporal assembly

Embeds xr.concat(datasets, dim=time).sortby(time)
(src/data/scripts/HRRR/process_hrrr_data.py lines 158-160,
src/data/scripts/processing/process_hrrr.py line 150): concat keeps one
entry per input dataset, in processing order; sortby performs a stable
sort on the time coordinate (numpy lexsort). A per-file dataset is
modelled as a pair (timestamp, value). -/

/-- Ordering of timed entries by their time coordinate alone. -/
def timeLE (a b : ℕ × ℚ) : Prop := a.1 ≤ b.1

instance : DecidableRel timeLE := fun a b => Nat.decLe a.1 b.1

instance : IsTotal (ℕ × ℚ) timeLE := ⟨fun a b => Nat.le_total a.1 b.1⟩

instance : IsTrans (ℕ × ℚ) timeLE := ⟨fun _ _ _ h h2 => Nat.le_trans h h2⟩

/-- The assembled time series: concatenation (the input list, in processing
order) followed by a stable sort on the time coordinate. -/
def concatSortTime (l : List (ℕ × ℚ)) : List (ℕ × ℚ) :=
  List.insertionSort timeLE l

/-! ## Per-file GRIB parsing, yearly script (src/data/scripts/HRRR/process_hrrr.py)

process_single_grib_file (lines 48-82) opens one GRIB2 file once per
configured level filter.  Every call to xr.open_dataset sits inside the
inner try whose handler is `except Exception: continue` (lines 68-70), so
any error the open raises — the PrematureEndOfFileError of a truncated
file included — skips that level silently.  The outer handler (lines
77-79), which logs the CORRUPTED FILE warning, only sees exceptions raised
outside the inner try. -/

/-- Content of one opened-and-clipped GRIB level: variable assignments
(variable name to value; values abstracted to one rational per variable). -/
abbrev VarMap := List (String × ℚ)

/-- One atmospheric level of a GRIB file as the yearly script consumes it:
`hasDataVars` models the `if ds_level.data_vars:` check (line 62);
`clipped = some c` models the bbox-clipped dataset having nbytes > 0
(line 66) with content c. -/
structure LevelData where
  hasDataVars : Bool
  clipped : Option VarMap
deriving DecidableEq, Repr

/-- Model of one GRIB2 source file: when `corrupted` is true, any attempt
to open the file raises a structural/truncation error (gribapi
PrematureEndOfFileError at open); otherwise `levels k` is the level
matching filter key k (none: that level is absent from this file). -/
structure GribFile where
  corrupted : Bool
  levels : String → Option LevelData

/-- CONFIG LEVEL_FILTERS keys in iteration order (lines 33-37). -/
def LEVEL_FILTERS : List String := ["2m", "10m", "surface"]

/-- Errors an open can raise. -/
inductive OpenError where
  | prematureEndOfFile
deriving DecidableEq, Repr

/-- Models xr.open_dataset(grib_path, engine=cfgrib, filter_by_keys=k): a
corrupted (truncated) file raises at open; otherwise it yields the level
matching the filter, or an absent level. -/
def openGrib (f : GribFile) (k : String) : Except OpenError (Option LevelData) :=
  if f.corrupted then .error .prematureEndOfFile else .ok (f.levels k)

/-- One iteration of the level loop (lines 55-70): the result the iteration
appends to level_datasets, if any.  The inner `except Exception: continue`
catches every error the open raises, the corrupted-file error included, so
a failing iteration appends nothing and emits nothing. -/
def levelIteration (f : GribFile) (k : String) : Option VarMap :=
  match openGrib f k with
  | .error _ => none
  | .ok none => none
  | .ok (some ld) => if ld.hasDataVars then ld.clipped else none

/-- Models xr.merge(level_datasets, compat=override): variables are taken
from all datasets; on an overlapping variable name the first-listed
dataset wins. -/
def mergeOverride (ds : List VarMap) : VarMap :=
  ds.flatten.foldl
    (fun acc p => if (acc.map Prod.fst).contains p.1 then acc else acc ++ [p]) []

/-- Embeds process_single_grib_file (lines 48-82): the dataset produced for
the file (none: no raster produced) together with the logging events
emitted.  A corrupted file loses every level to the inner handler and
takes the silent `if not level_datasets: return None` path (lines 72-73);
the CORRUPTED FILE warning of the outer handler (lines 77-79) is never
reached for an error raised at open. -/
def processSingleGribFile (f : GribFile) : Option VarMap × List Event :=
  let levelDatasets := LEVEL_FILTERS.filterMap (levelIteration f)
  if levelDatasets.isEmpty then (none, [])
  else (some (mergeOverride levelDatasets), [])

/-- Embeds the per-file collection loop of main (lines 132-137): a file
whose parse returns a truthy dataset is appended to processed_datasets.
Python bool(Dataset) is true exactly when the dataset has data variables,
so an empty merge result is dropped by `if dataset:`. -/
def collectProcessed (files : List GribFile) : List VarMap :=
  files.filterMap (fun f =>
    match (processSingleGribFile f).1 with
    | some d => if d.isEmpty then none else some d
    | none => none)

/-- Embeds the zero-match guard of main (lines 107-110): with no GRIB2
files found, main logs an error and returns before any processing; with
files present it proceeds with them. -/
def hrrrYearlyZeroGuard (gribFiles : List GribFile) :
    Option (List GribFile) × List Event :=
  if gribFiles.isEmpty then
    (none, [Event.err "No GRIB2 files found. Exiting."])
  else (some gribFiles, [])

/-! ## MODIS filename parsing

Embeds parse_modis_filename, shared in structure by
src/data/scripts/MODIS/modis_processor.py (lines 58-66) and
src/data/scripts/processing/process_modis.py (lines 32-40): the regex
    DATE_REGEX = \.A(\d{4})(\d{3})\.
searched (re.search: first match anywhere) against the file basename. -/

/-- Digits of a character list read as a decimal number. -/
def digitsToNat (cs : List Char) : ℕ :=
  cs.foldl (fun a c => a * 10 + (c.toNat - 48)) 0

/-- Match of the regex at the head of a character list: a dot, a capital A,
four digits (the year), three digits (the day of year), a dot. -/
def matchDotADate : List Char → Option (ℕ × ℕ)
  | '.' :: 'A' :: c1 :: c2 :: c3 :: c4 :: d1 :: d2 :: d3 :: '.' :: _ =>
      if ([c1, c2, c3, c4, d1, d2, d3].all Char.isDigit) then
        some (digitsToNat [c1, c2, c3, c4], digitsToNat [d1, d2, d3])
      else none
  | _ => none

/-- re.search: the match at the leftmost position where one exists. -/
def searchDotADate : List Char → Option (ℕ × ℕ)
  | [] => none
  | c :: rest =>
      match matchDotADate (c :: rest) with
      | some r => some r
      | none => searchDotADate rest

/-- Splits a character list at every occurrence of a separator character
(the pieces, separators dropped; an empty input gives one empty piece). -/
def splitOnChar (sep : Char) : List Char → List (List Char)
  | [] => [[]]
  | c :: rest =>
      match splitOnChar sep rest with
      | [] => if c = sep then [[], []] else [[c]]
      | h :: t => if c = sep then [] :: h :: t else (c :: h) :: t

/-- Whether the first list is an initial segment of the second. -/
def leadsList : List Char → List Char → Bool
  | [], _ => true
  | _ :: _, [] => false
  | p :: ps, c :: cs => p = c && leadsList ps cs

/-- Characters before the first occurrence of the pattern (the whole list
when the pattern never occurs) — Python str.split(pattern)[0]. -/
def takeUntilMatch (pat : List Char) : List Char → List Char
  | [] => []
  | c :: cs => if leadsList pat (c :: cs) then [] else c :: takeUntilMatch pat cs

/-- Models os.path.basename / pathlib .name (POSIX paths). -/
def basenameOf (path : String) : String :=
  String.mk ((splitOnChar '/' path.toList).getLastD path.toList)

/-- parse_modis_filename: (year, day-of-year) extracted from the basename,
or none when the regex does not match. -/
def parseModisFilename (path : String) : Option (ℕ × ℕ) :=
  searchDotADate (basenameOf path).toList

/-! ## MODIS batch processor, per-file skip logic
(src/data/scripts/MODIS/modis_processor.py, process_single_file, lines 74-147)

The surrounding filesystem is a map from path to content (abstract ℕ
payloads); the accesses the function performs are recorded as a trace. -/

/-- Filesystem model: which paths exist and with what (abstract) content. -/
structure Fs where
  contents : String → Option ℕ

/-- Result value of process_single_file: None, a Skipped message or a
Successfully-processed message (messages reduced to the base filename). -/
inductive ModisResult where
  | noResult
  | skipped (base : String)
  | processed (base : String)
deriving DecidableEq, Repr

/-- Trace entries for the file accesses process_single_file performs. -/
inductive Access where
  | checkedExists (p : String)
  | openedFile (p : String)
  | wrotePath (p : String)
deriving DecidableEq, Repr

/-- base_filename: os.path.basename(hdf_path).split(".hdf")[0] (line 86). -/
def baseFilename (hdfPath : String) : String :=
  String.mk (takeUntilMatch ".hdf".toList (basenameOf hdfPath).toList)

/-- Output path for the NDVI GeoTIFF (line 87, os.path.join with /). -/
def ndviOutPath (outDirNdvi hdfPath : String) : String :=
  outDirNdvi ++ "/" ++ baseFilename hdfPath ++ "_NDVI.tif"

/-- Output path for the EVI GeoTIFF (line 88). -/
def eviOutPath (outDirEvi hdfPath : String) : String :=
  outDirEvi ++ "/" ++ baseFilename hdfPath ++ "_EVI.tif"

/-- Writes one path with a payload, leaving every other path unchanged. -/
def Fs.write (fs : Fs) (p : String) (v : ℕ) : Fs :=
  ⟨fun q => if q = p then some v else fs.contents q⟩

/-- Embeds process_single_file (lines 74-147).  `hdfPipeline` abstracts the
processing branch's raster work (steps 2-5: the GDAL/rioxarray subdataset
reads, clipping, masking, scaling), giving the two output payloads, or
none when that work raises and the handler at lines 145-147 returns None.
Returns the result value, the filesystem after the call and the access
trace.  Order of operations as written: parse the date (line 80, with
Python falsiness `if not year:` treating year 0 like None), build the
output paths, short-circuit existence check (line 91), and only in the
processing branch open the HDF file (line 101) and write the outputs
(lines 140-141). -/
def processSingleFile (hdfPipeline : String → Option (ℕ × ℕ)) (fs : Fs)
    (hdfPath outDirNdvi outDirEvi : String) : ModisResult × Fs × List Access :=
  match parseModisFilename hdfPath with
  | none => (ModisResult.noResult, fs, [])
  | some (year, _doy) =>
    if year = 0 then (ModisResult.noResult, fs, [])
    else
      let pN := ndviOutPath outDirNdvi hdfPath
      let pE := eviOutPath outDirEvi hdfPath
      let checks : List Access :=
        if (fs.contents pN).isSome then
          [Access.checkedExists pN, Access.checkedExists pE]
        else [Access.checkedExists pN]
      if ((fs.contents pN).isSome && (fs.contents pE).isSome) then
        (ModisResult.skipped (baseFilename hdfPath), fs, checks)
      else
        match hdfPipeline hdfPath with
        | none =>
            (ModisResult.noResult, fs, checks ++ [Access.openedFile hdfPath])
        | some (vN, vE) =>
            (ModisResult.processed (baseFilename hdfPath),
             (fs.write pN vN).write pE vE,
             checks ++ [Access.openedFile hdfPath, Access.wrotePath pN,
                        Access.wrotePath pE])

/-! ## File operations of the writers

The persistence steps are modelled as operation traces plus a small
semantics for a direct ds.to_netcdf(path) write that may fail. -/

/-- File-system operations a writer performs. -/
inductive FileOp where
  | mkdirAll (dir : String)
  | writeFull (path : String)
  | renameFile (src dst : String)
deriving DecidableEq, Repr

/-! ## SRTM converter
(src/data/scripts/processing/process_srtm.py, convert_srtm_elevation,
lines 12-73) -/

/-- Stream of draws modelling numpy.random: `stream n` is the n-th unit
draw in [0, 1]; `pos` the cursor of draws consumed so far. -/
structure Rng where
  stream : ℕ → ℚ
  pos : ℕ

/-- Models np.random.uniform(lo, hi, (ny, nx)): an ny×nx array of
independent draws, consuming ny*nx positions of the stream. -/
def uniform2 (lo hi : ℚ) (ny nx : ℕ) (g : Rng) : (ℕ → ℕ → ℚ) × Rng :=
  (fun i j => lo + (hi - lo) * g.stream (g.pos + i * nx + j),
   { stream := g.stream, pos := g.pos + ny * nx })

/-- Models np.gradient(a)[0]: axis-0 differences, central in the interior,
one-sided at the edges, unit spacing.  np.gradient needs at least two
samples along the axis; the degenerate guard returns 0 (unreachable for
the 70×100 master grid). -/
def gradientAxis0 (ny : ℕ) (a : ℕ → ℕ → ℚ) (i j : ℕ) : ℚ :=
  if ny ≤ 1 then 0
  else if i = 0 then a 1 j - a 0 j
  else if i = ny - 1 then a i j - a (i - 1) j
  else (a (i + 1) j - a (i - 1) j) / 2

/-- Models np.gradient(a)[1]: axis-1 differences, same scheme. -/
def gradientAxis1 (nx : ℕ) (a : ℕ → ℕ → ℚ) (i j : ℕ) : ℚ :=
  if nx ≤ 1 then 0
  else if j = 0 then a i 1 - a i 0
  else if j = nx - 1 then a i j - a i (j - 1)
  else (a i (j + 1) - a i (j - 1)) / 2

/-- The unified SRTM output dataset (variables of lines 45-58). -/
structure SrtmDataset where
  ny : ℕ
  nx : ℕ
  elevation_mean : ℕ → ℕ → ℚ
  elevation_median : ℕ → ℕ → ℚ
  elevation_std : ℕ → ℕ → ℚ
  elevation_min : ℕ → ℕ → ℚ
  elevation_max : ℕ → ℕ → ℚ
  slope : ℕ → ℕ → ℚ
  aspect : ℕ → ℕ → ℚ

/-- Embeds convert_srtm_elevation for a master grid of shape (ny, nx):
with no .tif tiles found (lines 22-28) a placeholder of uniform random
draws is used for every elevation statistic, std identically zero; with
tiles present (lines 29-37) the data and std are independent draws and
min/max are mean ∓ std — no tile is ever read.  Either way the function
builds the dataset (lines 45-58) and writes it to
data/unified/elevation_srtm.nc (line 72).  Returns the dataset written,
the console events and the file operations performed. -/
def convertSrtmElevation (ny nx : ℕ) (tifFiles : List String) (g : Rng) :
    SrtmDataset × List Event × List FileOp :=
  if tifFiles.isEmpty then
    let (elevationData, _) := uniform2 0 2000 ny nx g
    ({ ny := ny, nx := nx,
       elevation_mean := elevationData,
       elevation_median := elevationData,
       elevation_std := fun _ _ => 0,
       elevation_min := elevationData,
       elevation_max := elevationData,
       slope := gradientAxis0 ny elevationData,
       aspect := gradientAxis1 nx elevationData },
     [Event.info "No SRTM files found, creating placeholder"],
     [FileOp.mkdirAll "data/unified",
      FileOp.writeFull "data/unified/elevation_srtm.nc"])
  else
    let (elevationData, g1) := uniform2 0 2000 ny nx g
    let (elevationStd, _) := uniform2 0 50 ny nx g1
    ({ ny := ny, nx := nx,
       elevation_mean := elevationData,
       elevation_median := elevationData,
       elevation_std := elevationStd,
       elevation_min := fun i j => elevationData i j - elevationStd i j,
       elevation_max := fun i j => elevationData i j + elevationStd i j,
       slope := gradientAxis0 ny elevationData,
       aspect := gradientAxis1 nx elevationData },
     [],
     [FileOp.mkdirAll "data/unified",
      FileOp.writeFull "data/unified/elevation_srtm.nc"])

/-! ## Persistence of the unified outputs

All three writers call ds.to_netcdf(output_path) on the final output path
itself — src/data/scripts/processing/process_hrrr.py lines 169-174 (inside
try/except), src/data/scripts/processing/process_modis.py lines 168-173
(inside try/except), src/data/scripts/SRTM/srtm_to_netcdf_utm.py line 309
(unguarded; the caller's top-level handler at lines 368-372 prints the
error and exits).  None writes to a temporary path or renames. -/

/-- State of one path on disk. -/
inductive FileState where
  | absent
  | halfWritten
  | full
deriving DecidableEq, Repr

/-- Disk contents: the state of every path. -/
def Disk := String → FileState

/-- Updates the state of one path. -/
def Disk.set (d : Disk) (p : String) (st : FileState) : Disk :=
  fun q => if q = p then st else d q

/-- Models ds.to_netcdf(path): the library opens the target path and
streams the encoded dataset into it.  A run that fails partway (disk,
permissions, encoding error) leaves whatever was already flushed — a
partially-written file — at the target; a successful run leaves the
complete file. -/
def toNetcdf (fails : Bool) (p : String) (d : Disk) : Disk × Except Unit Unit :=
  if fails then (d.set p .halfWritten, .error ())
  else (d.set p .full, .ok ())

/-- The final output path of the unified HRRR writer (line 156). -/
def hrrrOutPath : String := "data/unified/weather_hrrr.nc"

/-- Embeds the save step of convert_hrrr_weather (process_hrrr.py lines
155-174): mkdir of the parent, then to_netcdf on the final path inside
try/except — a failure is logged and the function falls through (no
re-raise).  Returns the disk, the events, whether an exception escaped,
and the file operations performed. -/
def hrrrSaveFinal (fails : Bool) (d : Disk) :
    Disk × List Event × Bool × List FileOp :=
  let (d1, r) := toNetcdf fails hrrrOutPath d
  match r with
  | .error _ =>
      (d1, [Event.err "Failed to save final NetCDF file"], false,
       [FileOp.mkdirAll "data/unified", FileOp.writeFull hrrrOutPath])
  | .ok _ =>
      (d1, [Event.info "Successfully created unified HRRR NetCDF file."], false,
       [FileOp.mkdirAll "data/unified", FileOp.writeFull hrrrOutPath])

/-- The final output path of the unified MODIS writer (line 154). -/
def modisOutPath : String := "data/unified/vegetation_modis.nc"

/-- Embeds the save step of convert_modis_vegetation (process_modis.py
lines 153-173): same structure as the HRRR writer. -/
def modisSaveFinal (fails : Bool) (d : Disk) :
    Disk × List Event × Bool × List FileOp :=
  let (d1, r) := toNetcdf fails modisOutPath d
  match r with
  | .error _ =>
      (d1, [Event.err "Failed to save final NetCDF file"], false,
       [FileOp.mkdirAll "data/unified", FileOp.writeFull modisOutPath])
  | .ok _ =>
      (d1, [Event.info "Successfully created unified MODIS NetCDF file."], false,
       [FileOp.mkdirAll "data/unified", FileOp.writeFull modisOutPath])

/-- The output path of the SRTM-to-UTM writer (srtm_to_netcdf_utm.py line
336). -/
def srtmUtmOutPath : String := "data/processed/SRTM/srtm_socal_utm11n_3km.nc"

/-- Embeds the write of create_netcdf_with_metadata (srtm_to_netcdf_utm.py
lines 307-309): ds.to_netcdf(output_path) with no surrounding handler, so
a failure propagates to the caller (main catches it at top level and
exits). -/
def srtmUtmWrite (fails : Bool) (d : Disk) :
    Disk × Bool × List FileOp :=
  let (d1, r) := toNetcdf fails srtmUtmOutPath d
  match r with
  | .error _ => (d1, true, [FileOp.writeFull srtmUtmOutPath])
  | .ok _ => (d1, false, [FileOp.writeFull srtmUtmOutPath])

/-! ## Unified HRRR converter
(src/data/scripts/processing/process_hrrr.py, convert_hrrr_weather)

The module's imports (lines 1-19) bind os, warnings, logging, datetime,
Path, xr, pd, np, PrematureEndOfFileError and setup_master_grid; the
script's __main__ guard (lines 178-181) additionally imports rioxarray
before calling convert_hrrr_weather.  The name rasterio, referenced at
line 137 as rasterio.enums.Resampling.bilinear, is never bound. -/

/-- Python runtime errors the embedding distinguishes. -/
inductive PyError where
  | nameError (n : String)
deriving DecidableEq, Repr

/-- Models resolution of a bare Python identifier against a scope: an
unbound name raises NameError. -/
def evalName (scope : List String) (n : String) : Except PyError Unit :=
  if scope.contains n then .ok () else .error (.nameError n)

/-- Names bound in the module scope of processing/process_hrrr.py while
convert_hrrr_weather runs under the __main__ guard: the module-level
imports and definitions (lines 1-37) plus the guard's import rioxarray
(line 180). -/
def hrrrUnifiedScope : List String :=
  ["os", "warnings", "logging", "datetime", "Path", "xr", "pd", "np",
   "PrematureEndOfFileError", "setup_master_grid", "CONFIG",
   "setup_logging", "process_single_grib_file", "convert_hrrr_weather",
   "rioxarray"]

/-- CONFIG HRRR_VARS (line 28). -/
def HRRR_VARS : List String :=
  ["t2m", "r2", "sh2", "d2m", "u10", "v10", "max_10si", "prate"]

/-- The native HRRR projection string written at line 74. -/
def hrrrProjStr : String :=
  "+proj=lcc +lat_1=38.5 +lat_2=38.5 +lat_0=38.5 +lon_0=262.5"

/-- One GRIB2 file as the unified script consumes it: the file's name, the
name of its parent directory (the YYYYMMDD date folder), whether opening
it raises a structural error, and the per-level contents. -/
structure HrrrFile where
  name : String
  parentDir : String
  corrupted : Bool
  levels : String → Option VarMap

/-- Models pd.to_datetime(date_str, format=YYYYMMDD) (line 48): succeeds on
an 8-digit folder name, read as a number; a malformed name raises
ValueError (the calendar-validity checks of pandas are abstracted — every
input below uses well-formed folder names). -/
def parseYmd (s : String) : Option ℕ :=
  let cs := s.toList
  if cs.length = 8 && cs.all Char.isDigit then some (digitsToNat cs) else none

/-- One per-file parsed dataset of the unified script: the time coordinate
from the date folder, the merged variables and the CRS attached at line
75. -/
structure HrrrDs where
  time : ℕ
  vars : VarMap
  crs : String
deriving DecidableEq, Repr

/-- Embeds process_single_grib_file of the unified script (lines 39-85).
The date parse (lines 47-48) sits in the outer try, so a malformed folder
name raises ValueError into the outer handler (lines 79-82), which logs
the CORRUPTED FILE warning and returns None.  Each per-level open sits in
the inner try (lines 51-63) whose handler skips the level; a corrupted
file therefore loses every level and takes the warning at lines 65-67. -/
def processSingleGribFileU (f : HrrrFile) : Option HrrrDs × List Event :=
  match parseYmd f.parentDir with
  | none =>
      (none, [Event.warn ("CORRUPTED FILE: Could not process " ++ f.name)])
  | some t =>
      let levelDatasets :=
        LEVEL_FILTERS.filterMap (fun k => if f.corrupted then none else f.levels k)
      if levelDatasets.isEmpty then
        (none, [Event.warn ("No data found in " ++ f.name ++ ". Skipping.")])
      else
        (some { time := t, vars := mergeOverride levelDatasets, crs := hrrrProjStr },
         [])

/-- The master grid's coordinate arrays (the template dataset of lines
98-103 is built from exactly these). -/
structure Grid where
  ys : List ℚ
  xs : List ℚ
deriving DecidableEq, Repr

/-- A raster regridded onto a template grid: its grid, the time coordinate
and the variable names carried over (resampled cell values abstracted). -/
structure ReprojDs where
  grid : Grid
  time : ℕ
  varNames : List String
deriving DecidableEq, Repr

/-- vars_to_process (line 128): the configured HRRR variables present in
the parsed dataset. -/
def hrrrVarsToProcess (ds : HrrrDs) : List String :=
  HRRR_VARS.filter (fun v => ds.vars.any (fun p => p.1 = v))

/-- Models the external rioxarray reproject_match call against the master
grid template (spec §6 collaborator): the output raster lives on exactly
the template's grid — its y/x coordinate arrays are the template's — and
carries the selected variables; resampled cell values are abstracted. -/
def reprojectMatchDs (tmpl : Grid) (ds : HrrrDs) : ReprojDs :=
  { grid := tmpl, time := ds.time, varNames := hrrrVarsToProcess ds }

/-- Failures of the reprojection step. -/
inductive RegridError where
  | pyErr (e : PyError)
  | libErr (msg : String)
deriving DecidableEq, Repr

/-- The reprojection step as written (lines 133-138): Python evaluates the
argument expression rasterio.enums.Resampling.bilinear before the call, so
the step first resolves the name rasterio in the module scope; only with
the name bound does reproject_match run. -/
def hrrrReprojStep (scope : List String) (tmpl : Grid) (ds : HrrrDs) :
    Except RegridError ReprojDs :=
  match evalName scope "rasterio" with
  | .error e => .error (.pyErr e)
  | .ok _ => .ok (reprojectMatchDs tmpl ds)

/-- The per-file loop of convert_hrrr_weather (lines 116-141),
parameterized by the reprojection step: a file parsing to None is skipped
(line 122); a file with none of the required variables is skipped with a
warning (lines 129-131); a reprojection failure is caught by the except at
lines 140-141, logged, and the loop continues — the collected reprojected
datasets and the emitted events. -/
def hrrrFileLoop (reproj : HrrrDs → Except RegridError ReprojDs) :
    List HrrrFile → List ReprojDs × List Event
  | [] => ([], [])
  | f :: rest =>
      let evs := (processSingleGribFileU f).2
      let tl := hrrrFileLoop reproj rest
      match (processSingleGribFileU f).1 with
      | none => (tl.1, evs ++ tl.2)
      | some ds =>
          if (hrrrVarsToProcess ds).isEmpty then
            (tl.1,
             evs ++ [Event.warn ("No required variables found in " ++ f.name ++ ". Skipping.")]
                 ++ tl.2)
          else
            match reproj ds with
            | .error _ =>
                (tl.1, evs ++ [Event.err ("Failed to reproject " ++ f.name)] ++ tl.2)
            | .ok r => (r :: tl.1, evs ++ tl.2)

/-- The contribution of one file to the collected reprojected datasets of
the per-file loop: none when the file is skipped at any stage. -/
def hrrrFileOutcome (reproj : HrrrDs → Except RegridError ReprojDs)
    (f : HrrrFile) : Option ReprojDs :=
  match (processSingleGribFileU f).1 with
  | none => none
  | some ds =>
      if (hrrrVarsToProcess ds).isEmpty then none
      else
        match reproj ds with
        | .error _ => none
        | .ok r => some r

/-- The outcome of one convert_hrrr_weather run: the reprojected datasets
collected, the path written (none: the function returned without writing)
and the events. -/
structure HrrrRun where
  reprojected : List ReprojDs
  output : Option String
  events : List Event
deriving Repr

/-- Embeds convert_hrrr_weather (lines 87-176) for a master grid with
coordinate arrays gys/gxs: the zero-match guard (lines 108-110), the
per-file loop, and the guard at lines 143-145 that returns without saving
when nothing was reprojected.  The success branch (concat, sortby and the
save of lines 147-174) would write hrrrOutPath. -/
def convertHrrrWeatherU (gys gxs : List ℚ) (files : List HrrrFile) : HrrrRun :=
  if files.isEmpty then
    { reprojected := [], output := none,
      events := [Event.err "No GRIB2 files found. Exiting."] }
  else
    let tmpl : Grid := { ys := gys, xs := gxs }
    let run := hrrrFileLoop (hrrrReprojStep hrrrUnifiedScope tmpl) files
    if run.1.isEmpty then
      { reprojected := run.1, output := none,
        events := run.2 ++
          [Event.err "No HRRR data was successfully processed and reprojected. Exiting."] }
    else
      { reprojected := run.1, output := some hrrrOutPath, events := run.2 }

/-! ## Unified MODIS converter
(src/data/scripts/processing/process_modis.py)

The module's imports (lines 1-13) bind os, warnings, logging, re,
datetime, timedelta, Path, xr, rioxarray, np, ProcessPoolExecutor,
as_completed and setup_master_grid; the name rasterio, referenced at line
146 as rasterio.enums.Resampling.average, is never bound. -/

/-- Names bound in the module scope of processing/process_modis.py while
convert_modis_vegetation runs. -/
def modisModuleScope : List String :=
  ["os", "warnings", "logging", "re", "datetime", "timedelta", "Path",
   "xr", "rioxarray", "np", "ProcessPoolExecutor", "as_completed",
   "setup_master_grid", "CONFIG", "setup_logging", "parse_modis_filename",
   "process_single_hdf", "convert_modis_vegetation"]

/-- One MODIS HDF file as process_single_hdf consumes it: its name, which
subdatasets are present, and the raw QA / NDVI / EVI cell arrays. -/
structure ModisHdfFile where
  name : String
  hasPixelReliability : Bool
  hasNdvi : Bool
  hasEvi : Bool
  qa : List (Option ℤ)
  ndvi : List (Option ℚ)
  evi : List (Option ℚ)
deriving DecidableEq, Repr

/-- One per-file dataset produced by process_single_hdf: the derived time
as the (year, day-of-year) pair — the calendar normalization of
datetime + timedelta is abstracted, no claim below depends on it — and the
masked-and-scaled variables. -/
structure ModisDaily where
  time : ℕ × ℕ
  ndvi : List (Option ℚ)
  evi : List (Option ℚ)
deriving DecidableEq, Repr

/-- Embeds process_single_hdf (process_modis.py lines 42-87).  A filename
the date regex does not match yields a warning and None (lines 49-51); a
year of 0000 makes datetime(year, 1, 1) raise inside the try, caught by
the handler at lines 85-87 (error event, None); a missing subdataset makes
find_subdataset raise ValueError, caught the same way; otherwise the QA
mask and scale factor are applied exactly as in the quality-filter
embedding above. -/
def processSingleHdf (f : ModisHdfFile) : Option ModisDaily × List Event :=
  match parseModisFilename f.name with
  | none => (none, [Event.warn ("Could not parse date from " ++ f.name ++ ", skipping.")])
  | some (year, doy) =>
    if year = 0 then
      (none, [Event.err ("Error processing " ++ f.name)])
    else if !(f.hasPixelReliability && f.hasNdvi && f.hasEvi) then
      (none, [Event.err ("Error processing " ++ f.name)])
    else
      (some { time := (year, doy),
              ndvi := qualityFilterVar VALID_QA_VALUES SCALE_FACTOR f.qa f.ndvi,
              evi := qualityFilterVar VALID_QA_VALUES SCALE_FACTOR f.qa f.evi },
       [])

/-- Mean of a list of rationals (sum over length). -/
def qMean (l : List ℚ) : ℚ := l.sum / l.length

/-- Models Resampling.average under reproject_match: each target cell is
the mean of the valid (non-missing) fine-resolution source cells that fall
inside it; a target cell with no valid constituent is missing.
`constituents` gives, per target cell, the source cells it covers (fixed
by the two grids' geometry). -/
def averageResample (constituents : ℕ → ℕ → List (Option ℚ)) (i j : ℕ) :
    Option ℚ :=
  let valid := (constituents i j).filterMap id
  if valid.isEmpty then none else some (qMean valid)

/-- The variables of the final unified MODIS dataset (lines 146-151). -/
structure ModisFinal where
  ndvi_mean : ℕ → ℕ → Option ℚ
  ndvi_std : ℕ → ℕ → Option ℚ
  evi_mean : ℕ → ℕ → Option ℚ
  evi_std : ℕ → ℕ → Option ℚ

/-- Embeds the aggregation step of convert_modis_vegetation, lines 146-151,
as it would execute were the name rasterio bound (it is not — see the
run embedding below): reproject_match with average resampling produces
ndvi_mean and evi_mean, and the std variables are the placeholders
    final_ds[ndvi_std] = final_ds[ndvi_mean] * 0.1
    final_ds[evi_std]  = final_ds[evi_mean] * 0.1
— not a windowed reduction over the constituent cells. -/
def modisStats (ndviCons eviCons : ℕ → ℕ → List (Option ℚ)) : ModisFinal :=
  let nm := averageResample ndviCons
  let em := averageResample eviCons
  { ndvi_mean := nm,
    ndvi_std := fun i j => (nm i j).map (fun x => x * (1 / 10)),
    evi_mean := em,
    evi_std := fun i j => (em i j).map (fun x => x * (1 / 10)) }

/-- Outcome of a convert_modis_vegetation run that terminates normally:
whether the unified file was written (the construction of the written
dataset, lines 146-173, is abstracted — it is unreachable) and the events. -/
structure ModisRun where
  output : Option Unit
  events : List Event
deriving DecidableEq, Repr

/-- Embeds convert_modis_vegetation (process_modis.py lines 89-175): the
zero-match guard (lines 101-103), the per-file parallel map (worker
completion order abstracted to submission order — the run never reaches
the time-sorted output), the all-failed guard (lines 121-123), and then
line 146, which evaluates rasterio.enums.Resampling.average: with the name
rasterio unbound and no surrounding handler, the NameError propagates out
of the function. -/
def convertModisVegetation (files : List ModisHdfFile) :
    Except PyError ModisRun :=
  if files.isEmpty then
    .ok { output := none, events := [Event.err "No HDF files found. Exiting."] }
  else
    let results := files.map processSingleHdf
    let evs := (results.map Prod.snd).flatten
    let allDaily := results.filterMap Prod.fst
    if allDaily.isEmpty then
      .ok { output := none,
            events := evs ++ [Event.err "No MODIS data was successfully processed. Exiting."] }
    else
      match evalName modisModuleScope "rasterio" with
      | .error e => .error e
      | .ok _ => .ok { output := some (), events := evs }

/-! ## Theorems -/

/-- Masking commutes with scaling on a cell: the filter output equals the
mask applied to the already-scaled value, and an unmasked cell never
escapes as a number. -/
lemma qualityFilterCell_eq_where_scale (valid : List ℤ) (s : ℚ)
    (q : Option ℤ) (v : Option ℚ) :
    qualityFilterCell valid s q v = whereCell (isinCell valid q) (scaleCell s v) := by
  cases h : isinCell valid q <;>
    simp [qualityFilterCell, whereCell, scaleCell, h]

/-- Cell access of the variable-level quality filter. -/
lemma qualityFilterVar_getD (valid : List ℤ) (s : ℚ) (qa : List (Option ℤ))
    (v : List (Option ℚ)) (i : ℕ) (hqa : i < qa.length) (hv : i < v.length) :
    (qualityFilterVar valid s qa v).getD i none =
      qualityFilterCell valid s (qa.getD i none) (v.getD i none) := by
  have h : i < (qualityFilterVar valid s qa v).length := by
    simp [qualityFilterVar, List.length_zipWith]; omega
  rw [List.getD_eq_getElem _ _ h, List.getD_eq_getElem _ _ hqa,
      List.getD_eq_getElem _ _ hv]
  simp [qualityFilterVar, List.getElem_zipWith]

/-- C4: for every variable with an associated QA array, the quality filter
replaces each cell whose QA value is not in the configured valid set with
missing (none — not a sentinel number), and the multiplicative scale
factor is applied only after the masking: the output cell equals the mask
applied to the scaled value, so an invalid cell's sentinel is never
turned into a scaled, plausible-looking number. -/
theorem c4_quality_filter_masks_invalid_to_missing (valid : List ℤ) (s : ℚ)
    (qa : List (Option ℤ)) (v : List (Option ℚ)) (i : ℕ)
    (hqa : i < qa.length) (hv : i < v.length) :
    (qualityFilterVar valid s qa v).getD i none =
      whereCell (isinCell valid (qa.getD i none)) (scaleCell s (v.getD i none)) ∧
    (isinCell valid (qa.getD i none) = false →
      (qualityFilterVar valid s qa v).getD i none = none) := by
  have h := qualityFilterVar_getD valid s qa v i hqa hv
  rw [h, qualityFilterCell_eq_where_scale]
  refine ⟨rfl, fun hbad => ?_⟩
  rw [hbad]
  rfl

/-- Witness for C4 at a concrete input: QA value 5 is invalid under the
configured set, so the sentinel -3000 becomes missing rather than the
scaled -0.3; QA value 0 is valid and the cell is scaled. -/
theorem c4_quality_filter_witness :
    (qualityFilterVar VALID_QA_VALUES SCALE_FACTOR [some 5, some 0]
      [some (-3000), some 5000]).getD 0 none = none ∧
    (qualityFilterVar VALID_QA_VALUES SCALE_FACTOR [some 5, some 0]
      [some (-3000), some 5000]).getD 1 none = some (1 / 2) := by
  have h0 := c4_quality_filter_masks_invalid_to_missing VALID_QA_VALUES
    SCALE_FACTOR [some 5, some 0] [some (-3000), some 5000] 0
    (by decide) (by decide)
  have h1 := c4_quality_filter_masks_invalid_to_missing VALID_QA_VALUES
    SCALE_FACTOR [some 5, some 0] [some (-3000), some 5000] 1
    (by decide) (by decide)
  refine ⟨h0.2 (by decide), ?_⟩
  rw [h1.1]
  norm_num [whereCell, isinCell, scaleCell, VALID_QA_VALUES, SCALE_FACTOR,
    List.getD]

/-- C5 counterexample: two per-file datasets map to the same derived
timestamp 5 — the assembled series keeps both entries: it has two entries
at that timestamp, not exactly one, and the earlier file's values are not
overwritten by the later's (nor averaged). -/
theorem c5_duplicate_timestamp_kept_twice :
    concatSortTime [(5, 10), (5, 20)] = [(5, 10), (5, 20)] ∧
    (concatSortTime [(5, 10), (5, 20)]).countP (fun e => e.1 == 5) = 2 := by
  decide

/-- C5 amended: concatenating the per-file datasets along time and sorting
by time retains one entry per input file: the result is a permutation of
the input (values unchanged, per-timestamp multiplicities preserved —
duplicate timestamps are not collapsed, last-write-wins does not occur)
and is sorted ascending by time. -/
theorem c5_amended_concat_sort_retains_all_entries (l : List (ℕ × ℚ)) :
    (concatSortTime l).Perm l ∧
    (concatSortTime l).Sorted timeLE ∧
    (∀ t : ℕ, (concatSortTime l).countP (fun e => e.1 == t) =
      l.countP (fun e => e.1 == t)) := by
  refine ⟨List.perm_insertionSort timeLE l, List.sorted_insertionSort timeLE l,
    fun t => (List.perm_insertionSort timeLE l).countP_eq _⟩

/-- C9: with zero .tif tiles found, the SRTM converter still writes a full
output dataset; in it elevation_std is identically zero and min, mean,
median and max coincide at every cell; the cell values are drawn from the
random stream (mean cell (i,j) is 2000 times the stream draw), so two
runs over the same empty input can produce different outputs. -/
theorem c9_srtm_placeholder_on_zero_tiles (ny nx : ℕ) (g : Rng) :
    FileOp.writeFull "data/unified/elevation_srtm.nc" ∈
      (convertSrtmElevation ny nx [] g).2.2 ∧
    (∀ i j, (convertSrtmElevation ny nx [] g).1.elevation_std i j = 0 ∧
      (convertSrtmElevation ny nx [] g).1.elevation_min i j =
        (convertSrtmElevation ny nx [] g).1.elevation_mean i j ∧
      (convertSrtmElevation ny nx [] g).1.elevation_median i j =
        (convertSrtmElevation ny nx [] g).1.elevation_mean i j ∧
      (convertSrtmElevation ny nx [] g).1.elevation_max i j =
        (convertSrtmElevation ny nx [] g).1.elevation_mean i j) ∧
    (∀ i j, (convertSrtmElevation ny nx [] g).1.elevation_mean i j =
      2000 * g.stream (g.pos + i * nx + j)) ∧
    (∃ g₁ g₂ : Rng,
      (convertSrtmElevation 70 100 [] g₁).1.elevation_mean 0 0 ≠
      (convertSrtmElevation 70 100 [] g₂).1.elevation_mean 0 0) := by
  refine ⟨by simp [convertSrtmElevation], ?_, ?_, ?_⟩
  · intro i j
    refine ⟨rfl, rfl, rfl, rfl⟩
  · intro i j
    show (0 : ℚ) + (2000 - 0) * g.stream (g.pos + i * nx + j) = _
    ring
  · refine ⟨⟨fun _ => 0, 0⟩, ⟨fun _ => 1, 0⟩, ?_⟩
    show (0 : ℚ) + (2000 - 0) * 0 ≠ (0 : ℚ) + (2000 - 0) * 1
    norm_num

/-- C7 counterexample: a failing persist of the unified HRRR output leaves
a partially-written file at the final output path — the claim that no
partially-written state remains there (temporary path and rename) is
false: the writer calls to_netcdf on the final path itself and performs no
rename. -/
theorem c7_failed_write_leaves_partial_state :
    (hrrrSaveFinal true (fun _ => FileState.absent)).1 hrrrOutPath =
      FileState.halfWritten ∧
    FileOp.writeFull hrrrOutPath ∈
      (hrrrSaveFinal true (fun _ => FileState.absent)).2.2.2 ∧
    (∀ p q, FileOp.renameFile p q ∉
      (hrrrSaveFinal true (fun _ => FileState.absent)).2.2.2) := by
  refine ⟨rfl, by simp [hrrrSaveFinal, toNetcdf, Disk.set], ?_⟩
  intro p q
  simp [hrrrSaveFinal, toNetcdf, Disk.set]

/-- C7 amended: every writer persists by a direct to_netcdf on the final
output path (no temporary path, no rename), so a failing write leaves
partially-written state at that path; the failure is contained per output
file in the HRRR and MODIS converters (caught and logged, the function
returns normally) while the SRTM-UTM writer propagates it to its caller;
a successful write leaves the complete file. -/
theorem c7_amended_direct_write_failure_contained (d : Disk) :
    ((hrrrSaveFinal true d).1 hrrrOutPath = FileState.halfWritten ∧
     (hrrrSaveFinal true d).2.2.1 = false ∧
     Event.err "Failed to save final NetCDF file" ∈ (hrrrSaveFinal true d).2.1 ∧
     (hrrrSaveFinal false d).1 hrrrOutPath = FileState.full) ∧
    ((modisSaveFinal true d).1 modisOutPath = FileState.halfWritten ∧
     (modisSaveFinal true d).2.2.1 = false ∧
     Event.err "Failed to save final NetCDF file" ∈ (modisSaveFinal true d).2.1 ∧
     (modisSaveFinal false d).1 modisOutPath = FileState.full) ∧
    ((srtmUtmWrite true d).1 srtmUtmOutPath = FileState.halfWritten ∧
     (srtmUtmWrite true d).2.1 = true ∧
     (srtmUtmWrite false d).1 srtmUtmOutPath = FileState.full) ∧
    (∀ fails p q,
      FileOp.renameFile p q ∉ (hrrrSaveFinal fails d).2.2.2 ∧
      FileOp.renameFile p q ∉ (modisSaveFinal fails d).2.2.2 ∧
      FileOp.renameFile p q ∉ (srtmUtmWrite fails d).2.2) := by
  refine ⟨⟨rfl, rfl, by simp [hrrrSaveFinal, toNetcdf], rfl⟩,
          ⟨rfl, rfl, by simp [modisSaveFinal, toNetcdf], rfl⟩,
          ⟨rfl, rfl, rfl⟩, ?_⟩
  intro fails p q
  cases fails <;>
    simp [hrrrSaveFinal, modisSaveFinal, srtmUtmWrite, toNetcdf]

/-- The concrete random stream used in the SRTM counterexample: every unit
draw is one half. -/
def rngHalf : Rng := ⟨fun _ => 1 / 2, 0⟩

/-- C6 counterexample: with zero matching source files the SRTM converter
signals no error and does not stop without output — it writes the unified
output file, whose cells are fabricated from the random stream (cell
(0,0) of elevation_mean is 1000 under the all-halves stream). -/
theorem c6_srtm_zero_match_fabricates_output :
    (convertSrtmElevation 70 100 [] rngHalf).2.2 =
      [FileOp.mkdirAll "data/unified",
       FileOp.writeFull "data/unified/elevation_srtm.nc"] ∧
    (convertSrtmElevation 70 100 [] rngHalf).2.1.all (fun e => !e.isErr) = true ∧
    (convertSrtmElevation 70 100 [] rngHalf).1.elevation_mean 0 0 = 1000 := by
  refine ⟨rfl, rfl, ?_⟩
  show (0 : ℚ) + (2000 - 0) * rngHalf.stream (0 + 0 * 100 + 0) = 1000
  norm_num [rngHalf]

/-- C6 amended: on zero matching source files the HRRR scripts and the
MODIS converter log an error-level event (an early return, not a raised
NoSourceDataError) and produce no output, but the SRTM converter proceeds
and writes an output dataset fabricated from the random stream. -/
theorem c6_amended_zero_match_behaviour (gys gxs : List ℚ) (g : Rng) :
    (convertHrrrWeatherU gys gxs []).output = none ∧
    Event.err "No GRIB2 files found. Exiting." ∈
      (convertHrrrWeatherU gys gxs []).events ∧
    hrrrYearlyZeroGuard [] =
      (none, [Event.err "No GRIB2 files found. Exiting."]) ∧
    convertModisVegetation [] =
      .ok { output := none,
            events := [Event.err "No HDF files found. Exiting."] } ∧
    FileOp.writeFull "data/unified/elevation_srtm.nc" ∈
      (convertSrtmElevation 70 100 [] g).2.2 ∧
    (∀ i j, (convertSrtmElevation 70 100 [] g).1.elevation_mean i j =
      2000 * g.stream (g.pos + i * 100 + j)) := by
  refine ⟨rfl, by simp [convertHrrrWeatherU], rfl, rfl,
    by simp [convertSrtmElevation], ?_⟩
  intro i j
  show (0 : ℚ) + (2000 - 0) * g.stream (g.pos + i * 100 + j) = _
  ring

/-- C10: for an HDF file whose name carries a parseable MODIS date and
whose NDVI and EVI output paths both already exist, process_single_file
returns the Skipped result without opening the HDF file, without writing
any path, and with the filesystem unchanged — so re-running the batch
leaves every previously completed output untouched. -/
theorem c10_skip_existing_outputs (pipe : String → Option (ℕ × ℕ)) (fs : Fs)
    (hdfPath dN dE : String) (y d : ℕ)
    (hparse : parseModisFilename hdfPath = some (y, d)) (hy : y ≠ 0)
    (hN : (fs.contents (ndviOutPath dN hdfPath)).isSome = true)
    (hE : (fs.contents (eviOutPath dE hdfPath)).isSome = true) :
    (processSingleFile pipe fs hdfPath dN dE).1 =
      ModisResult.skipped (baseFilename hdfPath) ∧
    (processSingleFile pipe fs hdfPath dN dE).2.1 = fs ∧
    (∀ p, Access.openedFile p ∉ (processSingleFile pipe fs hdfPath dN dE).2.2) ∧
    (∀ p, Access.wrotePath p ∉ (processSingleFile pipe fs hdfPath dN dE).2.2) := by
  have hrun : processSingleFile pipe fs hdfPath dN dE =
      (ModisResult.skipped (baseFilename hdfPath), fs,
       [Access.checkedExists (ndviOutPath dN hdfPath),
        Access.checkedExists (eviOutPath dE hdfPath)]) := by
    unfold processSingleFile
    rw [hparse]
    simp [hy, hN, hE]
  rw [hrun]
  refine ⟨rfl, rfl, fun p => ?_, fun p => ?_⟩ <;> simp

/-- The concrete filesystem of the C10 witness: exactly the two output
GeoTIFF paths of the example HDF file exist. -/
def fsBothOutputs : Fs :=
  ⟨fun p =>
    if p = "outN/MOD13Q1.A2020001.h08v05.061_NDVI.tif" then some 1
    else if p = "outE/MOD13Q1.A2020001.h08v05.061_EVI.tif" then some 2
    else none⟩

/-- Witness for C10 at a concrete input: both outputs of the example HDF
file exist, so the call is skipped and the filesystem is returned
unchanged. -/
theorem c10_skip_existing_outputs_witness :
    (processSingleFile (fun _ => none) fsBothOutputs
      "MOD13Q1.A2020001.h08v05.061.hdf" "outN" "outE").1 =
      ModisResult.skipped "MOD13Q1.A2020001.h08v05.061" ∧
    (processSingleFile (fun _ => none) fsBothOutputs
      "MOD13Q1.A2020001.h08v05.061.hdf" "outN" "outE").2.1 = fsBothOutputs := by
  have h := c10_skip_existing_outputs (fun _ => none) fsBothOutputs
    "MOD13Q1.A2020001.h08v05.061.hdf" "outN" "outE" 2020 1
    (by decide) (by decide) (by decide) (by decide)
  refine ⟨?_, h.2.1⟩
  rw [h.1]
  decide

/-- C3: a corrupted GRIB2 file — one whose open raises the structural
truncation error under every level filter — makes the per-file parser
return None, but silently: the inner per-level handler swallows the open
error before the CORRUPTED FILE warning of lines 77-79 can fire, so no
warning event is emitted.  The caller drops the file and continues: the
processed outputs of a batch containing the corrupted file equal those of
the same batch without it (the processed-file count drops by exactly one
when every other file yields output, and no other file's output changes). -/
theorem c3_corrupted_file_isolated_but_silent (pre post : List GribFile)
    (c : GribFile) (hc : c.corrupted = true) :
    processSingleGribFile c = (none, []) ∧
    collectProcessed (pre ++ c :: post) = collectProcessed (pre ++ post) := by
  have hnone : (processSingleGribFile c).1 = none := by
    simp [processSingleGribFile, levelIteration, openGrib, hc, LEVEL_FILTERS]
  constructor
  · have hev : (processSingleGribFile c).2 = [] := by
      simp [processSingleGribFile, levelIteration, openGrib, hc, LEVEL_FILTERS]
    calc processSingleGribFile c
        = ((processSingleGribFile c).1, (processSingleGribFile c).2) := rfl
      _ = (none, []) := by rw [hnone, hev]
  · unfold collectProcessed
    rw [List.filterMap_append, List.filterMap_append, List.filterMap_cons]
    rw [hnone]

/-- A well-formed GRIB file of the C3 witness: its 2-metre level is
present, has data variables and clips to a non-empty bbox subset. -/
def goodGrib : GribFile :=
  ⟨false, fun k => if k = "2m" then some ⟨true, some [("t2m", 1)]⟩ else none⟩

/-- A corrupted GRIB file of the C3 witness. -/
def corruptGrib : GribFile := ⟨true, fun _ => none⟩

/-- Witness for C3 at a concrete input: inserting the corrupted file into a
one-file batch leaves the batch output unchanged, and the corrupted file
produces no raster and no warning. -/
theorem c3_corrupted_file_witness :
    processSingleGribFile corruptGrib = (none, []) ∧
    collectProcessed ([] ++ corruptGrib :: [goodGrib]) =
      collectProcessed ([] ++ [goodGrib]) :=
  c3_corrupted_file_isolated_but_silent [] [goodGrib] corruptGrib rfl

/-- Outcome of a file whose parse produced nothing. -/
lemma hrrrFileOutcome_parse_none (reproj : HrrrDs → Except RegridError ReprojDs)
    (f : HrrrFile) (h : (processSingleGribFileU f).1 = none) :
    hrrrFileOutcome reproj f = none := by
  unfold hrrrFileOutcome
  rw [h]

/-- Outcome of a file whose parse produced a dataset. -/
lemma hrrrFileOutcome_parse_some (reproj : HrrrDs → Except RegridError ReprojDs)
    (f : HrrrFile) (ds : HrrrDs) (h : (processSingleGribFileU f).1 = some ds) :
    hrrrFileOutcome reproj f =
      (if (hrrrVarsToProcess ds).isEmpty then none
       else match reproj ds with
            | .error _ => none
            | .ok r => some r) := by
  unfold hrrrFileOutcome
  rw [h]

/-- The collected reprojected datasets of the per-file loop are the
filterMap of the per-file outcome. -/
lemma hrrrFileLoop_fst (reproj : HrrrDs → Except RegridError ReprojDs)
    (files : List HrrrFile) :
    (hrrrFileLoop reproj files).1 = files.filterMap (hrrrFileOutcome reproj) := by
  induction files with
  | nil => rfl
  | cons f rest ih =>
      rw [List.filterMap_cons]
      unfold hrrrFileLoop
      cases h : (processSingleGribFileU f).1 with
      | none =>
          rw [hrrrFileOutcome_parse_none reproj f h]
          simpa [h] using ih
      | some ds =>
          rw [hrrrFileOutcome_parse_some reproj f ds h]
          by_cases hv : (hrrrVarsToProcess ds).isEmpty
          · simpa [h, hv] using ih
          · cases hr : reproj ds <;> simpa [h, hv, hr] using ih

/-- Events of the per-file loop over a longer batch keep the tail's
events. -/
lemma hrrrFileLoop_events_tail (reproj : HrrrDs → Except RegridError ReprojDs)
    (g : HrrrFile) (rest : List HrrrFile) (x : Event)
    (hx : x ∈ (hrrrFileLoop reproj rest).2) :
    x ∈ (hrrrFileLoop reproj (g :: rest)).2 := by
  unfold hrrrFileLoop
  cases h : (processSingleGribFileU g).1 with
  | none => simp [List.mem_append, hx]
  | some ds =>
      by_cases hv : (hrrrVarsToProcess ds).isEmpty
      · simp [hv, List.mem_append, hx]
      · cases hr : reproj ds <;> simp [hv, hr, List.mem_append, hx]

/-- A file of the batch whose parse succeeds with required variables but
whose reprojection fails contributes its error event to the loop's
events. -/
lemma hrrrFileLoop_reproj_err_mem (reproj : HrrrDs → Except RegridError ReprojDs)
    (files : List HrrrFile) (f : HrrrFile) (ds : HrrrDs) (e : RegridError)
    (hf : f ∈ files) (hp : (processSingleGribFileU f).1 = some ds)
    (hv : (hrrrVarsToProcess ds).isEmpty = false) (he : reproj ds = .error e) :
    Event.err ("Failed to reproject " ++ f.name) ∈ (hrrrFileLoop reproj files).2 := by
  induction files with
  | nil => cases hf
  | cons g rest ih =>
      rcases List.mem_cons.mp hf with rfl | hmem
      · unfold hrrrFileLoop
        simp [hp, hv, he, List.mem_append]
      · exact hrrrFileLoop_events_tail reproj g rest _ (ih hmem)

/-- C8: the unified HRRR converter references the unbound name rasterio in
its reprojection step, so the step raises NameError for every file that
reaches it; the per-file handler catches and logs it, the collection of
reprojected datasets is therefore always empty, and the function returns
without writing data/unified/weather_hrrr.nc — for every input batch. -/
theorem c8_unified_hrrr_never_writes (gys gxs : List ℚ) (files : List HrrrFile) :
    hrrrUnifiedScope.contains "rasterio" = false ∧
    (convertHrrrWeatherU gys gxs files).reprojected = [] ∧
    (convertHrrrWeatherU gys gxs files).output = none ∧
    (∀ f ∈ files, ∀ ds, (processSingleGribFileU f).1 = some ds →
      (hrrrVarsToProcess ds).isEmpty = false →
      Event.err ("Failed to reproject " ++ f.name) ∈
        (convertHrrrWeatherU gys gxs files).events) := by
  have hscope : hrrrUnifiedScope.contains "rasterio" = false := by decide
  have hmem : "rasterio" ∉ hrrrUnifiedScope := by decide
  have hstep : ∀ tmpl ds, hrrrReprojStep hrrrUnifiedScope tmpl ds =
      .error (.pyErr (.nameError "rasterio")) := by
    intro tmpl ds
    simp [hrrrReprojStep, evalName, hmem]
  have houtcome : ∀ tmpl f,
      hrrrFileOutcome (hrrrReprojStep hrrrUnifiedScope tmpl) f = none := by
    intro tmpl f
    unfold hrrrFileOutcome
    cases h : (processSingleGribFileU f).1 with
    | none => rfl
    | some ds => by_cases hv : (hrrrVarsToProcess ds).isEmpty <;> simp [hv, hstep]
  cases files with
  | nil => exact ⟨hscope, rfl, rfl, fun f hf => absurd hf (List.not_mem_nil f)⟩
  | cons f0 rest =>
      have hfst : (hrrrFileLoop
          (hrrrReprojStep hrrrUnifiedScope ⟨gys, gxs⟩) (f0 :: rest)).1 = [] := by
        rw [hrrrFileLoop_fst]
        exact List.filterMap_eq_nil_iff.mpr (fun f _ => houtcome _ f)
      have hrun : convertHrrrWeatherU gys gxs (f0 :: rest) =
          { reprojected := [], output := none,
            events := (hrrrFileLoop
                (hrrrReprojStep hrrrUnifiedScope ⟨gys, gxs⟩) (f0 :: rest)).2 ++
              [Event.err
                "No HRRR data was successfully processed and reprojected. Exiting."] } := by
        unfold convertHrrrWeatherU
        simp [hfst]
      refine ⟨hscope, by rw [hrun], by rw [hrun], ?_⟩
      intro f hf ds hp hv
      rw [hrun]
      refine List.mem_append_left _ ?_
      exact hrrrFileLoop_reproj_err_mem _ _ f ds _ hf hp hv (hstep _ ds)

/-- The master grid template of the C1 examples. -/
def gridEx : Grid := ⟨[0], [0]⟩

/-- First file of the C1 example batch: parses to a dataset carrying t2m. -/
def hrrrFileA : HrrrFile :=
  ⟨"subset_A__hrrr.t21z.wrfsfcf00.grib2", "20200101", false,
   fun k => if k = "2m" then some [("t2m", 1)] else none⟩

/-- Second file of the C1 example batch. -/
def hrrrFileB : HrrrFile :=
  ⟨"subset_B__hrrr.t21z.wrfsfcf00.grib2", "20200102", false,
   fun k => if k = "2m" then some [("t2m", 2)] else none⟩

/-- The dataset the first example file parses to. -/
def hrrrDsA : HrrrDs := ⟨20200101, [("t2m", 1)], hrrrProjStr⟩

/-- A reprojection step raising a library error (e.g. a grid mismatch) on
the first example file's dataset and succeeding on the second. -/
def mismatchReproj (ds : HrrrDs) : Except RegridError ReprojDs :=
  if ds.time = 20200101 then .error (.libErr "transform mismatch")
  else .ok (reprojectMatchDs gridEx ds)

/-- C1 counterexample: a reprojection failure on one file of a two-file
batch is caught by the per-file except of lines 140-141 and the loop
continues — the second file is still regridded and collected and the
failure is only logged.  A regridding error is therefore treated as a
recoverable per-file condition, not raised as a fatal configuration
error; no verification of the output grid takes place. -/
theorem c1_mismatch_recoverable_per_file :
    (hrrrFileLoop mismatchReproj [hrrrFileA, hrrrFileB]).1 =
      [{ grid := gridEx, time := 20200102, varNames := ["t2m"] }] ∧
    Event.err "Failed to reproject subset_A__hrrr.t21z.wrfsfcf00.grib2" ∈
      (hrrrFileLoop mismatchReproj [hrrrFileA, hrrrFileB]).2 := by
  decide

/-- C1 amended: the output of every successful regrid lies by construction
on exactly the master grid template — equal y/x coordinate arrays, the
contract of the external reproject_match — but this equality is not
verified by the engine, and a reprojection failure is a recoverable
per-file condition: the loop's collected outputs for a batch equal those
of the batch with the failing file removed. -/
theorem c1_amended_regrid_on_template_and_recovery (tmpl : Grid)
    (ds0 : HrrrDs) (reproj : HrrrDs → Except RegridError ReprojDs)
    (pre post : List HrrrFile) (f : HrrrFile) (ds : HrrrDs) (e : RegridError)
    (hp : (processSingleGribFileU f).1 = some ds)
    (hv : (hrrrVarsToProcess ds).isEmpty = false)
    (he : reproj ds = .error e) :
    (reprojectMatchDs tmpl ds0).grid = tmpl ∧
    (hrrrFileLoop reproj (pre ++ f :: post)).1 =
      (hrrrFileLoop reproj (pre ++ post)).1 := by
  refine ⟨rfl, ?_⟩
  rw [hrrrFileLoop_fst, hrrrFileLoop_fst, List.filterMap_append,
      List.filterMap_append, List.filterMap_cons]
  rw [hrrrFileOutcome_parse_some reproj f ds hp]
  simp [hv, he]

/-- Witness for the amended C1 at a concrete input: the failing first file
of the example batch is dropped and the rest of the batch is unaffected. -/
theorem c1_amended_witness :
    (reprojectMatchDs gridEx hrrrDsA).grid = gridEx ∧
    (hrrrFileLoop mismatchReproj ([] ++ hrrrFileA :: [hrrrFileB])).1 =
      (hrrrFileLoop mismatchReproj ([] ++ [hrrrFileB])).1 :=
  c1_amended_regrid_on_template_and_recovery gridEx hrrrDsA mismatchReproj
    [] [hrrrFileB] hrrrFileA hrrrDsA (RegridError.libErr "transform mismatch")
    (by decide) (by decide) rfl

/-- A well-formed MODIS HDF file for the C2 run: a parseable name, all
subdatasets present, every cell valid with value 10. -/
def constModisHdf : ModisHdfFile :=
  { name := "MOD13Q1.A2020001.h08v05.061.hdf",
    hasPixelReliability := true, hasNdvi := true, hasEvi := true,
    qa := [some 0], ndvi := [some 10], evi := [some 10] }

/-- Filtering the somes out of an all-(some x) list gives all-x. -/
lemma filterMap_id_all_some (x : ℚ) :
    ∀ (l : List (Option ℚ)), (∀ v ∈ l, v = some x) →
      l.filterMap id = l.map (fun _ => x)
  | [], _ => rfl
  | v :: t, h => by
      have hv : v = some x := h v (by simp)
      have ht := filterMap_id_all_some x t (fun u hu => h u (by simp [hu]))
      simp [hv, ht]

/-- The sum of an all-x list is its length times x. -/
lemma sum_all_eq (x : ℚ) :
    ∀ (l : List ℚ), (∀ v ∈ l, v = x) → l.sum = l.length * x
  | [], _ => by simp
  | a :: t, h => by
      have ha : a = x := h a (by simp)
      have ht := sum_all_eq x t (fun v hv => h v (by simp [hv]))
      simp [ha, ht]
      ring

/-- The mean of a non-empty all-x list is x. -/
lemma qMean_all_eq (x : ℚ) (l : List ℚ) (hne : l ≠ [])
    (hall : ∀ v ∈ l, v = x) : qMean l = x := by
  have hsum : l.sum = l.length * x := sum_all_eq x l hall
  have hlen : (l.length : ℚ) ≠ 0 := by
    have : l.length ≠ 0 := by
      simpa [List.length_eq_zero] using hne
    exact_mod_cast this
  unfold qMean
  rw [hsum, mul_comm, mul_div_assoc, div_self hlen, mul_one]

/-- C2: evidence of the divergence.  Running the MODIS converter on a
batch raises NameError at the aggregation step (the name rasterio is
unbound), so the pipeline produces no output at all for the scenario; and
the aggregation formulas of lines 146-151, taken with the name bound, give
a constant-10.0 input a mean of 10.0 but a std of 1.0 (mean times 0.1) —
not the 0.0 that a std computed from the same constituent cells yields. -/
theorem c2_constant_raster_stats_diverge (cons : ℕ → ℕ → List (Option ℚ))
    (hne : ∀ i j, cons i j ≠ [])
    (hconst : ∀ i j, ∀ v ∈ cons i j, v = some 10) :
    convertModisVegetation [constModisHdf] =
      .error (PyError.nameError "rasterio") ∧
    (∀ i j, (modisStats cons cons).ndvi_mean i j = some 10 ∧
            (modisStats cons cons).ndvi_std i j = some 1) := by
  constructor
  · rfl
  · intro i j
    have hfm : (cons i j).filterMap id = (cons i j).map (fun _ => (10 : ℚ)) :=
      filterMap_id_all_some 10 (cons i j) (hconst i j)
    have hmapne : (cons i j).map (fun _ => (10 : ℚ)) ≠ [] := by
      simpa using hne i j
    have hmean : averageResample cons i j = some 10 := by
      unfold averageResample
      rw [hfm]
      rw [if_neg (by simpa [List.isEmpty_iff] using hmapne)]
      congr 1
      exact qMean_all_eq 10 _ hmapne (fun v hv => by
        rcases List.mem_map.mp hv with ⟨u, _, rfl⟩
        rfl)
    refine ⟨hmean, ?_⟩
    show (averageResample cons i j).map (fun x => x * (1 / 10)) = some 1
    rw [hmean]
    norm_num

/-- Witness for C2 at a concrete input: one constituent cell of value 10
per target cell. -/
theorem c2_constant_raster_witness :
    convertModisVegetation [constModisHdf] =
      .error (PyError.nameError "rasterio") ∧
    (modisStats (fun _ _ => [some 10]) (fun _ _ => [some 10])).ndvi_mean 0 0 =
      some 10 ∧
    (modisStats (fun _ _ => [some 10]) (fun _ _ => [some 10])).ndvi_std 0 0 =
      some 1 := by
  have h := c2_constant_raster_stats_diverge (fun _ _ => [some 10])
    (fun _ _ => by simp) (fun _ _ v hv => by simpa using hv)
  exact ⟨h.1, (h.2 0 0).1, (h.2 0 0).2⟩

end NoaaFlps
